import Mathlib

/-!
Shallow embedding of the xsd-types crate (XSD built-in simple datatypes):
the datatype lattice with its IRI mapping, the bounded-integer value types
with their classification and arithmetic, the narrowing conversions, and
the lexical validation pipeline. Definitions mirror the Rust source
(src/lib.rs, src/value/decimal/integer/non_negative_integer.rs,
src/value/decimal/integer/non_positive_integer.rs, src/value/float.rs);
components of the crate that are not part of those files (the lexical
module, the decimal bound constants) are modelled from the specification
and marked as such.
-/

/-! ## Datatype lattice (src/lib.rs) -/

/-- Mirrors Rust enum UnsignedShortDatatype (src/lib.rs). -/
inductive UnsignedShortDatatype
  | UnsignedByte
deriving DecidableEq

/-- Mirrors Rust enum UnsignedIntDatatype (src/lib.rs). -/
inductive UnsignedIntDatatype
  | UnsignedShort (t : Option UnsignedShortDatatype)
deriving DecidableEq

/-- Mirrors Rust enum UnsignedLongDatatype (src/lib.rs). -/
inductive UnsignedLongDatatype
  | UnsignedInt (t : Option UnsignedIntDatatype)
deriving DecidableEq

/-- Mirrors Rust enum NonNegativeIntegerDatatype (src/lib.rs). -/
inductive NonNegativeIntegerDatatype
  | UnsignedLong (t : Option UnsignedLongDatatype)
  | PositiveInteger
deriving DecidableEq

/-- Mirrors Rust enum NonPositiveIntegerDatatype (src/lib.rs). -/
inductive NonPositiveIntegerDatatype
  | NegativeInteger
deriving DecidableEq

/-- Mirrors Rust enum ShortDatatype (src/lib.rs). -/
inductive ShortDatatype
  | Byte
deriving DecidableEq

/-- Mirrors Rust enum IntDatatype (src/lib.rs). -/
inductive IntDatatype
  | Short (t : Option ShortDatatype)
deriving DecidableEq

/-- Mirrors Rust enum LongDatatype (src/lib.rs). -/
inductive LongDatatype
  | Int (t : Option IntDatatype)
deriving DecidableEq

/-- Mirrors Rust enum IntegerDatatype (src/lib.rs). -/
inductive IntegerDatatype
  | NonPositiveInteger (t : Option NonPositiveIntegerDatatype)
  | Long (t : Option LongDatatype)
  | NonNegativeInteger (t : Option NonNegativeIntegerDatatype)
deriving DecidableEq

/-- Mirrors Rust enum DecimalDatatype (src/lib.rs). -/
inductive DecimalDatatype
  | Integer (t : Option IntegerDatatype)
deriving DecidableEq

/-- Mirrors Rust enum NCNameDatatype (src/lib.rs). -/
inductive NCNameDatatype
  | Id
  | IdRef
  | Entity
deriving DecidableEq

/-- Mirrors Rust enum NameDatatype (src/lib.rs). -/
inductive NameDatatype
  | NCName (t : Option NCNameDatatype)
deriving DecidableEq

/-- Mirrors Rust enum TokenDatatype (src/lib.rs). -/
inductive TokenDatatype
  | Language
  | NMToken
  | Name (t : Option NameDatatype)
deriving DecidableEq

/-- Mirrors Rust enum NormalizedStringDatatype (src/lib.rs). -/
inductive NormalizedStringDatatype
  | Token (t : Option TokenDatatype)
deriving DecidableEq

/-- Mirrors Rust enum StringDatatype (src/lib.rs). -/
inductive StringDatatype
  | NormalizedString (t : Option NormalizedStringDatatype)
deriving DecidableEq

/-- Mirrors Rust enum Datatype (src/lib.rs). -/
inductive Datatype
  | String (t : Option StringDatatype)
  | Boolean
  | Decimal (t : Option DecimalDatatype)
  | Float
  | Double
  | Duration
  | DateTime
  | Time
  | Date
  | GYearMonth
  | GYear
  | GMonthDay
  | GDay
  | GMonth
  | HexBinary
  | Base64Binary
  | AnyUri
  | QName
  | Notation
deriving DecidableEq

/-! ## The From conversions generated by the impl_from macro (src/lib.rs).
The macro generates, for each table entry, a plain conversion that wraps
the payload in Some, and an Option conversion that maps over the option
(so that None collapses to the variant holding None). -/

/-- From UnsignedShortDatatype for UnsignedIntDatatype (impl_from table). -/
def UnsignedShortDatatype.toUnsignedIntDatatype (t : UnsignedShortDatatype) :
    UnsignedIntDatatype :=
  .UnsignedShort (some t)

/-- From UnsignedIntDatatype for UnsignedLongDatatype (impl_from table). -/
def UnsignedIntDatatype.toUnsignedLongDatatype (t : UnsignedIntDatatype) :
    UnsignedLongDatatype :=
  .UnsignedInt (some t)

/-- From UnsignedShortDatatype for UnsignedLongDatatype (impl_from table). -/
def UnsignedShortDatatype.toUnsignedLongDatatype (t : UnsignedShortDatatype) :
    UnsignedLongDatatype :=
  .UnsignedInt (some t.toUnsignedIntDatatype)

/-- From UnsignedLongDatatype for NonNegativeIntegerDatatype (impl_from table). -/
def UnsignedLongDatatype.toNonNegativeIntegerDatatype (t : UnsignedLongDatatype) :
    NonNegativeIntegerDatatype :=
  .UnsignedLong (some t)

/-- From UnsignedIntDatatype for NonNegativeIntegerDatatype (impl_from table). -/
def UnsignedIntDatatype.toNonNegativeIntegerDatatype (t : UnsignedIntDatatype) :
    NonNegativeIntegerDatatype :=
  .UnsignedLong (some t.toUnsignedLongDatatype)

/-- From UnsignedShortDatatype for NonNegativeIntegerDatatype (impl_from table). -/
def UnsignedShortDatatype.toNonNegativeIntegerDatatype (t : UnsignedShortDatatype) :
    NonNegativeIntegerDatatype :=
  .UnsignedLong (some t.toUnsignedLongDatatype)

/-- From NonNegativeIntegerDatatype for IntegerDatatype (impl_from table). -/
def NonNegativeIntegerDatatype.toIntegerDatatype (t : NonNegativeIntegerDatatype) :
    IntegerDatatype :=
  .NonNegativeInteger (some t)

/-- From NonPositiveIntegerDatatype for IntegerDatatype (impl_from table). -/
def NonPositiveIntegerDatatype.toIntegerDatatype (t : NonPositiveIntegerDatatype) :
    IntegerDatatype :=
  .NonPositiveInteger (some t)

/-- From UnsignedLongDatatype for IntegerDatatype (impl_from table). -/
def UnsignedLongDatatype.toIntegerDatatype (t : UnsignedLongDatatype) :
    IntegerDatatype :=
  .NonNegativeInteger (some t.toNonNegativeIntegerDatatype)

/-- From UnsignedIntDatatype for IntegerDatatype (impl_from table). -/
def UnsignedIntDatatype.toIntegerDatatype (t : UnsignedIntDatatype) :
    IntegerDatatype :=
  .NonNegativeInteger (some t.toNonNegativeIntegerDatatype)

/-- From UnsignedShortDatatype for IntegerDatatype (impl_from table). -/
def UnsignedShortDatatype.toIntegerDatatype (t : UnsignedShortDatatype) :
    IntegerDatatype :=
  .NonNegativeInteger (some t.toNonNegativeIntegerDatatype)

/-- From NonNegativeIntegerDatatype for DecimalDatatype (impl_from table). -/
def NonNegativeIntegerDatatype.toDecimalDatatype (t : NonNegativeIntegerDatatype) :
    DecimalDatatype :=
  .Integer (some t.toIntegerDatatype)

/-- From NonPositiveIntegerDatatype for DecimalDatatype (impl_from table). -/
def NonPositiveIntegerDatatype.toDecimalDatatype (t : NonPositiveIntegerDatatype) :
    DecimalDatatype :=
  .Integer (some t.toIntegerDatatype)

/-- From UnsignedLongDatatype for DecimalDatatype (impl_from table). -/
def UnsignedLongDatatype.toDecimalDatatype (t : UnsignedLongDatatype) :
    DecimalDatatype :=
  .Integer (some t.toIntegerDatatype)

/-- From UnsignedIntDatatype for DecimalDatatype (impl_from table). -/
def UnsignedIntDatatype.toDecimalDatatype (t : UnsignedIntDatatype) :
    DecimalDatatype :=
  .Integer (some t.toIntegerDatatype)

/-- From UnsignedShortDatatype for DecimalDatatype (impl_from table). -/
def UnsignedShortDatatype.toDecimalDatatype (t : UnsignedShortDatatype) :
    DecimalDatatype :=
  .Integer (some t.toIntegerDatatype)

/-- From Option NonNegativeIntegerDatatype for Datatype: the generated
Option conversion maps the option, so None collapses to Decimal None. -/
def Datatype.ofNonNegativeIntegerDatatypeOpt (o : Option NonNegativeIntegerDatatype) :
    Datatype :=
  .Decimal (o.map NonNegativeIntegerDatatype.toDecimalDatatype)

/-- From Option NonPositiveIntegerDatatype for Datatype (None collapses to
Decimal None). -/
def Datatype.ofNonPositiveIntegerDatatypeOpt (o : Option NonPositiveIntegerDatatype) :
    Datatype :=
  .Decimal (o.map NonPositiveIntegerDatatype.toDecimalDatatype)

/-- From Option UnsignedLongDatatype for Datatype (None collapses to
Decimal None). -/
def Datatype.ofUnsignedLongDatatypeOpt (o : Option UnsignedLongDatatype) :
    Datatype :=
  .Decimal (o.map UnsignedLongDatatype.toDecimalDatatype)

/-- From Option UnsignedIntDatatype for Datatype (None collapses to
Decimal None). -/
def Datatype.ofUnsignedIntDatatypeOpt (o : Option UnsignedIntDatatype) :
    Datatype :=
  .Decimal (o.map UnsignedIntDatatype.toDecimalDatatype)

/-- From Option UnsignedShortDatatype for Datatype (None collapses to
Decimal None). -/
def Datatype.ofUnsignedShortDatatypeOpt (o : Option UnsignedShortDatatype) :
    Datatype :=
  .Decimal (o.map UnsignedShortDatatype.toDecimalDatatype)

/-! ## IRI constants (src/lib.rs), modelled as strings. -/

/-- IRIs are modelled as plain strings (IRI parsing and equality are
delegated to an external library in the source). -/
abbrev Iri := String

/-- Raw lexical text, as passed to Datatype::parse (an alias needed
because the String constructor of Datatype shadows the string type in
its namespace). -/
abbrev LexicalString := String

def XSD_DURATION : String := "http://www.w3.org/2001/XMLSchema#duration"
def XSD_DATE_TIME : String := "http://www.w3.org/2001/XMLSchema#dateTime"
def XSD_TIME : String := "http://www.w3.org/2001/XMLSchema#time"
def XSD_DATE : String := "http://www.w3.org/2001/XMLSchema#date"
def XSD_G_YEAR_MONTH : String := "http://www.w3.org/2001/XMLSchema#gYearMonth"
def XSD_G_YEAR : String := "http://www.w3.org/2001/XMLSchema#gYear"
def XSD_G_MONTH_DAY : String := "http://www.w3.org/2001/XMLSchema#gMonthDay"
def XSD_G_DAY : String := "http://www.w3.org/2001/XMLSchema#gDay"
def XSD_G_MONTH : String := "http://www.w3.org/2001/XMLSchema#gMonth"
def XSD_STRING : String := "http://www.w3.org/2001/XMLSchema#string"
def XSD_BOOLEAN : String := "http://www.w3.org/2001/XMLSchema#boolean"
def XSD_BASE64_BINARY : String := "http://www.w3.org/2001/XMLSchema#base64Binary"
def XSD_HEX_BINARY : String := "http://www.w3.org/2001/XMLSchema#hexBinary"
def XSD_FLOAT : String := "http://www.w3.org/2001/XMLSchema#float"
def XSD_DECIMAL : String := "http://www.w3.org/2001/XMLSchema#decimal"
def XSD_DOUBLE : String := "http://www.w3.org/2001/XMLSchema#double"
def XSD_ANY_URI : String := "http://www.w3.org/2001/XMLSchema#anyURI"
def XSD_Q_NAME : String := "http://www.w3.org/2001/XMLSchema#QName"
def XSD_NOTATION : String := "http://www.w3.org/2001/XMLSchema#NOTATION"
def XSD_NORMALIZED_STRING : String := "http://www.w3.org/2001/XMLSchema#normalizedString"
def XSD_TOKEN : String := "http://www.w3.org/2001/XMLSchema#token"
def XSD_LANGUAGE : String := "http://www.w3.org/2001/XMLSchema#language"
def XSD_NAME : String := "http://www.w3.org/2001/XMLSchema#Name"
def XSD_NMTOKEN : String := "http://www.w3.org/2001/XMLSchema#NMTOKEN"
def XSD_NC_NAME : String := "http://www.w3.org/2001/XMLSchema#NCName"
def XSD_NMTOKENS : String := "http://www.w3.org/2001/XMLSchema#NMTOKENS"
def XSD_ID : String := "http://www.w3.org/2001/XMLSchema#ID"
def XSD_IDREF : String := "http://www.w3.org/2001/XMLSchema#IDREF"
def XSD_ENTITY : String := "http://www.w3.org/2001/XMLSchema#ENTITY"
def XSD_IDREFS : String := "http://www.w3.org/2001/XMLSchema#IDREFS"
def XSD_ENTITIES : String := "http://www.w3.org/2001/XMLSchema#ENTITIES"
def XSD_INTEGER : String := "http://www.w3.org/2001/XMLSchema#integer"
def XSD_NON_POSITIVE_INTEGER : String := "http://www.w3.org/2001/XMLSchema#nonPositiveInteger"
def XSD_NEGATIVE_INTEGER : String := "http://www.w3.org/2001/XMLSchema#negativeInteger"
def XSD_LONG : String := "http://www.w3.org/2001/XMLSchema#long"
def XSD_INT : String := "http://www.w3.org/2001/XMLSchema#int"
def XSD_SHORT : String := "http://www.w3.org/2001/XMLSchema#short"
def XSD_BYTE : String := "http://www.w3.org/2001/XMLSchema#byte"
def XSD_NON_NEGATIVE_INTEGER : String := "http://www.w3.org/2001/XMLSchema#nonNegativeInteger"
def XSD_UNSIGNED_LONG : String := "http://www.w3.org/2001/XMLSchema#unsignedLong"
def XSD_UNSIGNED_INT : String := "http://www.w3.org/2001/XMLSchema#unsignedInt"
def XSD_UNSIGNED_SHORT : String := "http://www.w3.org/2001/XMLSchema#unsignedShort"
def XSD_UNSIGNED_BYTE : String := "http://www.w3.org/2001/XMLSchema#unsignedByte"
def XSD_POSITIVE_INTEGER : String := "http://www.w3.org/2001/XMLSchema#positiveInteger"

/-! ## The iri methods (src/lib.rs), leaves first. -/

/-- NCNameDatatype::iri. -/
def NCNameDatatype.iri : NCNameDatatype → String
  | .Id => XSD_ID
  | .IdRef => XSD_IDREF
  | .Entity => XSD_ENTITY

/-- NameDatatype::iri. -/
def NameDatatype.iri : NameDatatype → String
  | .NCName none => XSD_NC_NAME
  | .NCName (some t) => t.iri

/-- TokenDatatype::iri. -/
def TokenDatatype.iri : TokenDatatype → String
  | .Language => XSD_LANGUAGE
  | .NMToken => XSD_NMTOKEN
  | .Name none => XSD_NAME
  | .Name (some t) => t.iri

/-- NormalizedStringDatatype::iri. -/
def NormalizedStringDatatype.iri : NormalizedStringDatatype → String
  | .Token none => XSD_TOKEN
  | .Token (some t) => t.iri

/-- StringDatatype::iri. -/
def StringDatatype.iri : StringDatatype → String
  | .NormalizedString none => XSD_NORMALIZED_STRING
  | .NormalizedString (some t) => t.iri

/-- NonPositiveIntegerDatatype::iri. -/
def NonPositiveIntegerDatatype.iri : NonPositiveIntegerDatatype → String
  | .NegativeInteger => XSD_NEGATIVE_INTEGER

/-- ShortDatatype::iri. -/
def ShortDatatype.iri : ShortDatatype → String
  | .Byte => XSD_BYTE

/-- IntDatatype::iri. -/
def IntDatatype.iri : IntDatatype → String
  | .Short none => XSD_SHORT
  | .Short (some t) => t.iri

/-- LongDatatype::iri. -/
def LongDatatype.iri : LongDatatype → String
  | .Int none => XSD_INT
  | .Int (some t) => t.iri

/-- UnsignedShortDatatype::iri. -/
def UnsignedShortDatatype.iri : UnsignedShortDatatype → String
  | .UnsignedByte => XSD_UNSIGNED_BYTE

/-- UnsignedIntDatatype::iri. -/
def UnsignedIntDatatype.iri : UnsignedIntDatatype → String
  | .UnsignedShort none => XSD_UNSIGNED_SHORT
  | .UnsignedShort (some t) => t.iri

/-- UnsignedLongDatatype::iri. -/
def UnsignedLongDatatype.iri : UnsignedLongDatatype → String
  | .UnsignedInt none => XSD_UNSIGNED_INT
  | .UnsignedInt (some t) => t.iri

/-- NonNegativeIntegerDatatype::iri. -/
def NonNegativeIntegerDatatype.iri : NonNegativeIntegerDatatype → String
  | .UnsignedLong none => XSD_UNSIGNED_LONG
  | .UnsignedLong (some t) => t.iri
  | .PositiveInteger => XSD_POSITIVE_INTEGER

/-- IntegerDatatype::iri. -/
def IntegerDatatype.iri : IntegerDatatype → String
  | .NonPositiveInteger none => XSD_NON_POSITIVE_INTEGER
  | .NonPositiveInteger (some t) => t.iri
  | .Long none => XSD_LONG
  | .Long (some t) => t.iri
  | .NonNegativeInteger none => XSD_NON_NEGATIVE_INTEGER
  | .NonNegativeInteger (some t) => t.iri

/-- DecimalDatatype::iri. -/
def DecimalDatatype.iri : DecimalDatatype → String
  | .Integer none => XSD_INTEGER
  | .Integer (some t) => t.iri

/-- Datatype::iri (src/lib.rs). -/
def Datatype.iri : Datatype → Iri
  | .String none => XSD_STRING
  | .String (some t) => t.iri
  | .Boolean => XSD_BOOLEAN
  | .Decimal none => XSD_DECIMAL
  | .Decimal (some t) => t.iri
  | .Float => XSD_FLOAT
  | .Double => XSD_DOUBLE
  | .Duration => XSD_DURATION
  | .DateTime => XSD_DATE_TIME
  | .Time => XSD_TIME
  | .Date => XSD_DATE
  | .GYearMonth => XSD_G_YEAR_MONTH
  | .GYear => XSD_G_YEAR
  | .GMonthDay => XSD_G_MONTH_DAY
  | .GDay => XSD_G_DAY
  | .GMonth => XSD_G_MONTH
  | .HexBinary => XSD_HEX_BINARY
  | .Base64Binary => XSD_BASE64_BINARY
  | .AnyUri => XSD_ANY_URI
  | .QName => XSD_Q_NAME
  | .Notation => XSD_NOTATION

/-- Datatype::from_iri (src/lib.rs): the if-else chain over the known
IRIs, with the list-derived types (NMTOKENS, IDREFS, ENTITIES) mapped to
None and a final else returning None. -/
def Datatype.fromIri (iri : Iri) : Option Datatype :=
  if iri = XSD_DURATION then some .Duration
  else if iri = XSD_DATE_TIME then some .DateTime
  else if iri = XSD_TIME then some .Time
  else if iri = XSD_DATE then some .Date
  else if iri = XSD_G_YEAR_MONTH then some .GYearMonth
  else if iri = XSD_G_YEAR then some .GYear
  else if iri = XSD_G_MONTH_DAY then some .GMonthDay
  else if iri = XSD_G_DAY then some .GDay
  else if iri = XSD_G_MONTH then some .GMonth
  else if iri = XSD_STRING then some (.String none)
  else if iri = XSD_BOOLEAN then some .Boolean
  else if iri = XSD_BASE64_BINARY then some .Base64Binary
  else if iri = XSD_HEX_BINARY then some .HexBinary
  else if iri = XSD_FLOAT then some .Float
  else if iri = XSD_DECIMAL then some (.Decimal none)
  else if iri = XSD_DOUBLE then some .Double
  else if iri = XSD_ANY_URI then some .AnyUri
  else if iri = XSD_Q_NAME then some .QName
  else if iri = XSD_NOTATION then some .Notation
  else if iri = XSD_NORMALIZED_STRING then
    some (.String (some (.NormalizedString none)))
  else if iri = XSD_TOKEN then
    some (.String (some (.NormalizedString (some (.Token none)))))
  else if iri = XSD_LANGUAGE then
    some (.String (some (.NormalizedString (some (.Token (some .Language))))))
  else if iri = XSD_NAME then
    some (.String (some (.NormalizedString (some (.Token (some (.Name none)))))))
  else if iri = XSD_NMTOKEN then
    some (.String (some (.NormalizedString (some (.Token (some .NMToken))))))
  else if iri = XSD_NMTOKENS then none
  else if iri = XSD_NC_NAME then
    some (.String (some (.NormalizedString (some (.Token (some (.Name (some (.NCName none)))))))))
  else if iri = XSD_ID then
    some (.String (some (.NormalizedString (some (.Token (some (.Name (some (.NCName (some .Id))))))))))
  else if iri = XSD_IDREF then
    some (.String (some (.NormalizedString (some (.Token (some (.Name (some (.NCName (some .IdRef))))))))))
  else if iri = XSD_ENTITY then
    some (.String (some (.NormalizedString (some (.Token (some (.Name (some (.NCName (some .Entity))))))))))
  else if iri = XSD_IDREFS then none
  else if iri = XSD_ENTITIES then none
  else if iri = XSD_INTEGER then some (.Decimal (some (.Integer none)))
  else if iri = XSD_NON_POSITIVE_INTEGER then
    some (.Decimal (some (.Integer (some (.NonPositiveInteger none)))))
  else if iri = XSD_NEGATIVE_INTEGER then
    some (.Decimal (some (.Integer (some (.NonPositiveInteger (some .NegativeInteger))))))
  else if iri = XSD_LONG then
    some (.Decimal (some (.Integer (some (.Long none)))))
  else if iri = XSD_INT then
    some (.Decimal (some (.Integer (some (.Long (some (.Int none)))))))
  else if iri = XSD_SHORT then
    some (.Decimal (some (.Integer (some (.Long (some (.Int (some (.Short none)))))))))
  else if iri = XSD_BYTE then
    some (.Decimal (some (.Integer (some (.Long (some (.Int (some (.Short (some .Byte))))))))))
  else if iri = XSD_NON_NEGATIVE_INTEGER then
    some (.Decimal (some (.Integer (some (.NonNegativeInteger none)))))
  else if iri = XSD_UNSIGNED_LONG then
    some (.Decimal (some (.Integer (some (.NonNegativeInteger (some (.UnsignedLong none)))))))
  else if iri = XSD_UNSIGNED_INT then
    some (.Decimal (some (.Integer (some (.NonNegativeInteger (some (.UnsignedLong (some (.UnsignedInt none)))))))))
  else if iri = XSD_UNSIGNED_SHORT then
    some (.Decimal (some (.Integer (some (.NonNegativeInteger (some (.UnsignedLong (some (.UnsignedInt (some (.UnsignedShort none)))))))))))
  else if iri = XSD_UNSIGNED_BYTE then
    some (.Decimal (some (.Integer (some (.NonNegativeInteger (some (.UnsignedLong (some (.UnsignedInt (some (.UnsignedShort (some .UnsignedByte))))))))))))
  else if iri = XSD_POSITIVE_INTEGER then
    some (.Decimal (some (.Integer (some (.NonNegativeInteger (some .PositiveInteger))))))
  else none

/-- The IRIs for which from_iri returns a datatype (every known IRI except
the unimplemented list-derived NMTOKENS, IDREFS and ENTITIES). -/
def knownIris : List String :=
  [XSD_DURATION, XSD_DATE_TIME, XSD_TIME, XSD_DATE, XSD_G_YEAR_MONTH,
   XSD_G_YEAR, XSD_G_MONTH_DAY, XSD_G_DAY, XSD_G_MONTH, XSD_STRING,
   XSD_BOOLEAN, XSD_BASE64_BINARY, XSD_HEX_BINARY, XSD_FLOAT, XSD_DECIMAL,
   XSD_DOUBLE, XSD_ANY_URI, XSD_Q_NAME, XSD_NOTATION, XSD_NORMALIZED_STRING,
   XSD_TOKEN, XSD_LANGUAGE, XSD_NAME, XSD_NMTOKEN, XSD_NC_NAME, XSD_ID,
   XSD_IDREF, XSD_ENTITY, XSD_INTEGER, XSD_NON_POSITIVE_INTEGER,
   XSD_NEGATIVE_INTEGER, XSD_LONG, XSD_INT, XSD_SHORT, XSD_BYTE,
   XSD_NON_NEGATIVE_INTEGER, XSD_UNSIGNED_LONG, XSD_UNSIGNED_INT,
   XSD_UNSIGNED_SHORT, XSD_UNSIGNED_BYTE, XSD_POSITIVE_INTEGER]

/-! ## Bounded integer value types
(src/value/decimal/integer/non_negative_integer.rs and
src/value/decimal/integer/non_positive_integer.rs).
The BigInt backing store is modelled by Int. -/

/-- Modelled from the spec: the bound constant for the unsigned byte rung,
2^8 - 1 (the decimal module defining U8_MAX is not under src/). -/
def U8_MAX : Int := 255

/-- Modelled from the spec: the bound constant 2^16 - 1 (decimal module
not under src/). -/
def U16_MAX : Int := 65535

/-- Modelled from the spec: the bound constant 2^32 - 1 (decimal module
not under src/). -/
def U32_MAX : Int := 4294967295

/-- Modelled from the spec: the bound constant 2^64 - 1 (decimal module
not under src/). -/
def U64_MAX : Int := 18446744073709551615

/-- Mirrors Rust struct NonNegativeInteger(BigInt). The non-negativity of
the stored integer is the intended invariant, established at construction
and not re-checked on read, so the carrier is a plain wrapper. -/
structure NonNegativeInteger where
  val : Int
deriving DecidableEq

/-- Mirrors Rust struct NonPositiveInteger(BigInt). -/
structure NonPositiveInteger where
  val : Int
deriving DecidableEq

/-- NonNegativeInteger::non_negative_integer_type
(non_negative_integer.rs, lines 41-57). -/
def NonNegativeInteger.nonNegativeIntegerType (x : NonNegativeInteger) :
    Option NonNegativeIntegerDatatype :=
  if 0 < x.val then
    if x.val ≤ U8_MAX then
      some UnsignedShortDatatype.UnsignedByte.toNonNegativeIntegerDatatype
    else if x.val ≤ U16_MAX then
      some (UnsignedIntDatatype.UnsignedShort none).toNonNegativeIntegerDatatype
    else if x.val ≤ U32_MAX then
      some (UnsignedLongDatatype.UnsignedInt none).toNonNegativeIntegerDatatype
    else if x.val ≤ U64_MAX then
      some (NonNegativeIntegerDatatype.UnsignedLong none)
    else
      some NonNegativeIntegerDatatype.PositiveInteger
  else
    some UnsignedShortDatatype.UnsignedByte.toNonNegativeIntegerDatatype

/-- XsdDatatype::type_ for NonNegativeInteger (non_negative_integer.rs,
lines 70-74). -/
def NonNegativeInteger.type_ (x : NonNegativeInteger) : Datatype :=
  Datatype.ofNonNegativeIntegerDatatypeOpt x.nonNegativeIntegerType

/-- NonPositiveInteger::non_positive_integer_type
(non_positive_integer.rs, lines 87-94): note that the source tests
self.0 > 0, a condition that is dead under the non-positivity invariant. -/
def NonPositiveInteger.nonPositiveIntegerType (x : NonPositiveInteger) :
    Option NonPositiveIntegerDatatype :=
  if 0 < x.val then
    some NonPositiveIntegerDatatype.NegativeInteger
  else
    none

/-- XsdDatatype::type_ for NonPositiveInteger (non_positive_integer.rs,
lines 123-128). -/
def NonPositiveInteger.type_ (x : NonPositiveInteger) : Datatype :=
  Datatype.ofNonPositiveIntegerDatatypeOpt x.nonPositiveIntegerType

/-! ## Arithmetic on NonNegativeInteger
(non_negative_integer.rs, lines 162-242). A panic (BigInt division by
zero, or a failed assertion) aborts the process; it is modelled by the
ArithResult.panic outcome, distinct from any returned value. -/

/-- Outcome of an operation that can abort the process. -/
inductive ArithResult (α : Type)
  | ok (a : α)
  | panic
deriving DecidableEq

/-- Add for NonNegativeInteger (same type, lines 162-168): no check. -/
def NonNegativeInteger.add (a b : NonNegativeInteger) : NonNegativeInteger :=
  ⟨a.val + b.val⟩

/-- Sub for NonNegativeInteger (same type, lines 170-176): no check. -/
def NonNegativeInteger.sub (a b : NonNegativeInteger) : NonNegativeInteger :=
  ⟨a.val - b.val⟩

/-- Mul for NonNegativeInteger (same type, lines 178-184): no check. -/
def NonNegativeInteger.mul (a b : NonNegativeInteger) : NonNegativeInteger :=
  ⟨a.val * b.val⟩

/-- Div for NonNegativeInteger (same type, lines 186-192): BigInt
truncating division, which panics when the divisor is zero. -/
def NonNegativeInteger.div (a b : NonNegativeInteger) :
    ArithResult NonNegativeInteger :=
  if b.val = 0 then .panic else .ok ⟨a.val.tdiv b.val⟩

/-- Add of a machine integer (impl_arithmetic macro, lines 199-207):
computes over BigInt then asserts the result is not negative. -/
def NonNegativeInteger.addInt (a : NonNegativeInteger) (rhs : Int) :
    ArithResult NonNegativeInteger :=
  let n := a.val + rhs
  if n < 0 then .panic else .ok ⟨n⟩

/-- Sub of a machine integer (impl_arithmetic macro, lines 209-217):
asserts the result is not negative. -/
def NonNegativeInteger.subInt (a : NonNegativeInteger) (rhs : Int) :
    ArithResult NonNegativeInteger :=
  let n := a.val - rhs
  if n < 0 then .panic else .ok ⟨n⟩

/-- Mul of a machine integer (impl_arithmetic macro, lines 219-227):
asserts the result is not negative. -/
def NonNegativeInteger.mulInt (a : NonNegativeInteger) (rhs : Int) :
    ArithResult NonNegativeInteger :=
  let n := a.val * rhs
  if n < 0 then .panic else .ok ⟨n⟩

/-- Div of a machine integer (impl_arithmetic macro, lines 229-237):
BigInt division panics on a zero divisor, then the result is asserted
not negative. -/
def NonNegativeInteger.divInt (a : NonNegativeInteger) (rhs : Int) :
    ArithResult NonNegativeInteger :=
  if rhs = 0 then .panic
  else
    let n := a.val.tdiv rhs
    if n < 0 then .panic else .ok ⟨n⟩

/-! ## Fallible narrowing conversions (try_into macro,
non_negative_integer.rs lines 146-160 and non_positive_integer.rs lines
216-230): the num-bigint TryFrom succeeds exactly when the value fits the
target range, and on failure into_original hands back the original
BigInt, re-wrapped unchanged. -/

/-- Rust Result, with the error type second. -/
inductive RustResult (α ε : Type)
  | ok (a : α)
  | error (e : ε)
deriving DecidableEq

/-- TryFrom NonNegativeInteger for a machine integer with range
lo..=hi: ok with the numeric value or error carrying the input back. -/
def NonNegativeInteger.tryInto (lo hi : Int) (v : NonNegativeInteger) :
    RustResult Int NonNegativeInteger :=
  if lo ≤ v.val ∧ v.val ≤ hi then .ok v.val else .error v

/-- TryFrom NonPositiveInteger for a machine integer with range lo..=hi. -/
def NonPositiveInteger.tryInto (lo hi : Int) (v : NonPositiveInteger) :
    RustResult Int NonPositiveInteger :=
  if lo ≤ v.val ∧ v.val ≤ hi then .ok v.val else .error v

/-- The inclusive ranges of the ten machine targets of the try_into
macro, in source order: u8, u16, u32, u64, usize, i8, i16, i32, i64,
isize (usize and isize taken at the 64-bit width). -/
def machineTargets : List (Int × Int) :=
  [(0, 255), (0, 65535), (0, 4294967295), (0, 18446744073709551615),
   (0, 18446744073709551615), (-128, 127), (-32768, 32767),
   (-2147483648, 2147483647), (-9223372036854775808, 9223372036854775807),
   (-9223372036854775808, 9223372036854775807)]

/-! ## The native fixed-width unsigned classification
(non_negative_integer.rs, lines 244-322). The Rust aliases UnsignedLong =
u64, UnsignedInt = u32, UnsignedShort = u16 are modelled as Nat values
bounded by the respective width. -/

/-- XsdUnsignedLong::unsigned_long_type for u64 (lines 250-262). -/
def unsignedLongType (n : Nat) : Option UnsignedLongDatatype :=
  if n ≤ 255 then some UnsignedShortDatatype.UnsignedByte.toUnsignedLongDatatype
  else if n ≤ 65535 then
    some (UnsignedIntDatatype.UnsignedShort none).toUnsignedLongDatatype
  else if n ≤ 4294967295 then some (UnsignedLongDatatype.UnsignedInt none)
  else none

/-- XsdDatatype::type_ for UnsignedLong (lines 264-268): the Option is
converted to a Datatype by the generated From, so None collapses to
Decimal None. -/
def unsignedLongTypeDatatype (n : Nat) : Datatype :=
  Datatype.ofUnsignedLongDatatypeOpt (unsignedLongType n)

/-- XsdUnsignedInt::unsigned_int_type for u32 (lines 276-286). -/
def unsignedIntType (n : Nat) : Option UnsignedIntDatatype :=
  if n ≤ 255 then some UnsignedShortDatatype.UnsignedByte.toUnsignedIntDatatype
  else if n ≤ 65535 then some (UnsignedIntDatatype.UnsignedShort none)
  else none

/-- XsdDatatype::type_ for UnsignedInt (lines 288-292). -/
def unsignedIntTypeDatatype (n : Nat) : Datatype :=
  Datatype.ofUnsignedIntDatatypeOpt (unsignedIntType n)

/-- XsdUnsignedShort::unsigned_short_type for u16 (lines 300-308). -/
def unsignedShortType (n : Nat) : Option UnsignedShortDatatype :=
  if n ≤ 255 then some UnsignedShortDatatype.UnsignedByte
  else none

/-- XsdDatatype::type_ for UnsignedShort (lines 310-314). -/
def unsignedShortTypeDatatype (n : Nat) : Datatype :=
  Datatype.ofUnsignedShortDatatypeOpt (unsignedShortType n)

/-! ## Lexical validation and value construction.
The lexical module of the crate is not under src/, so the grammars below
are modelled from the specification (section 4.2): integer family is an
optional sign followed by one or more ASCII digits with leading zeros
permitted; decimal is an optional sign, digits, an optional dot followed
by digits, with at least one digit overall; float and double add an
optional exponent and accept INF, -INF and NaN verbatim. -/

/-- ASCII digit test over the character code. -/
def isAsciiDigit (c : Char) : Bool := 48 ≤ c.toNat && c.toNat ≤ 57

/-- Numeric value of an ASCII digit character. -/
def digitVal (c : Char) : Nat := c.toNat - 48

/-- Value denoted by a digit string (most significant first). -/
def digitsVal (l : List Char) : Nat :=
  List.foldl (fun acc c => acc * 10 + digitVal c) 0 l

/-- Parses a nonempty all-digit span to its value. -/
def parseDigits (l : List Char) : Option Nat :=
  if !l.isEmpty && l.all isAsciiDigit then some (digitsVal l) else none

/-- Models the BigInt FromStr parser used inside the value constructors:
an optional sign followed by one or more decimal digits; None models the
parse error (hence the unwrap panic). -/
def parseIntegerChars (l : List Char) : Option Int :=
  match l with
  | [] => none
  | c :: rest =>
    if c = '+' then (parseDigits rest).map (fun n => (n : Int))
    else if c = '-' then (parseDigits rest).map (fun n => -(n : Int))
    else (parseDigits l).map (fun n => (n : Int))

/-- BigInt FromStr on a string. -/
def parseBigInt (s : String) : Option Int := parseIntegerChars s.data

/-- Modelled from the spec: the lexical grammar of xsd:integer (the
lexical module is not under src/): optional sign, one or more digits. -/
def integerLexChars (l : List Char) : Bool :=
  match l with
  | [] => false
  | c :: rest =>
    if c = '+' then !rest.isEmpty && rest.all isAsciiDigit
    else if c = '-' then !rest.isEmpty && rest.all isAsciiDigit
    else !l.isEmpty && l.all isAsciiDigit

/-- Modelled from the spec: the lexical space of xsd:nonNegativeInteger
(lexical module not under src/): an integer lexical form denoting a
value that is at least zero, so a minus sign is only followed by zeros. -/
def nonNegLexChars (l : List Char) : Bool :=
  match l with
  | [] => false
  | c :: rest =>
    if c = '+' then !rest.isEmpty && rest.all isAsciiDigit
    else if c = '-' then !rest.isEmpty && rest.all (fun x => x == '0')
    else !l.isEmpty && l.all isAsciiDigit

/-- Validator for xsd:nonNegativeInteger on strings. -/
def nonNegLexValid (s : String) : Bool := nonNegLexChars s.data

/-- Modelled from the spec: the lexical space of xsd:nonPositiveInteger
(lexical module not under src/): an integer lexical form denoting a value
that is at most zero. -/
def nonPosLexChars (l : List Char) : Bool :=
  match l with
  | [] => false
  | c :: rest =>
    if c = '+' then !rest.isEmpty && rest.all (fun x => x == '0')
    else if c = '-' then !rest.isEmpty && rest.all isAsciiDigit
    else !l.isEmpty && l.all (fun x => x == '0')

/-- Validator for xsd:nonPositiveInteger on strings. -/
def nonPosLexValid (s : String) : Bool := nonPosLexChars s.data

/-- Modelled from the spec: the lexical space of xsd:negativeInteger
(lexical module not under src/): a minus sign, digits, denoted value
strictly negative (some digit nonzero). -/
def negLexChars (l : List Char) : Bool :=
  match l with
  | [] => false
  | c :: rest =>
    if c = '-' then
      !rest.isEmpty && rest.all isAsciiDigit && rest.any (fun x => x != '0')
    else false

/-- Validator for xsd:negativeInteger on strings. -/
def negLexValid (s : String) : Bool := negLexChars s.data

/-- Modelled from the spec: the lexical space of xsd:positiveInteger
(lexical module not under src/): optional plus sign, digits, denoted
value strictly positive. -/
def posLexChars (l : List Char) : Bool :=
  match l with
  | [] => false
  | c :: rest =>
    if c = '+' then
      !rest.isEmpty && rest.all isAsciiDigit && rest.any (fun x => x != '0')
    else if c = '-' then false
    else !l.isEmpty && l.all isAsciiDigit && l.any (fun x => x != '0')

/-! ### Decimal and float grammars (spec section 4.2). -/

/-- Modelled from the spec: unsigned decimal body, digits then an
optional dot and digits, with at least one digit present overall. -/
def decimalBodyValid (l : List Char) : Bool :=
  match l.dropWhile isAsciiDigit with
  | [] => !l.isEmpty
  | c :: frac =>
    c == '.' && frac.all isAsciiDigit &&
      (!(l.takeWhile isAsciiDigit).isEmpty || !frac.isEmpty)

/-- Modelled from the spec: value of an unsigned decimal body as a
scaled integer, the pair of the digit string value (integer and fraction
digits concatenated) and the number of fraction digits (lexical module
not under src/). -/
def decimalBodyValue (l : List Char) : Option (Int × Nat) :=
  match l.dropWhile isAsciiDigit with
  | [] => if l.isEmpty then none else some ((digitsVal l : Int), 0)
  | c :: frac =>
    if c == '.' && frac.all isAsciiDigit &&
        (!(l.takeWhile isAsciiDigit).isEmpty || !frac.isEmpty) then
      some ((digitsVal (l.takeWhile isAsciiDigit ++ frac) : Int), frac.length)
    else none

/-- Modelled from the spec: decimal mantissa with optional sign. -/
def decimalMantValid (l : List Char) : Bool :=
  match l with
  | [] => false
  | c :: rest =>
    if c = '+' then decimalBodyValid rest
    else if c = '-' then decimalBodyValid rest
    else decimalBodyValid l

/-- Modelled from the spec: signed scaled-integer value of a decimal
mantissa (lexical module not under src/). -/
def decimalMantValue (l : List Char) : Option (Int × Nat) :=
  match l with
  | [] => none
  | c :: rest =>
    if c = '+' then decimalBodyValue rest
    else if c = '-' then (decimalBodyValue rest).map (fun p => (-p.1, p.2))
    else decimalBodyValue l

/-- Splits a character list at the first exponent marker e or E. -/
def splitAtExp (l : List Char) : List Char × Option (List Char) :=
  match l.span (fun c => !(c == 'e' || c == 'E')) with
  | (m, []) => (m, none)
  | (m, _ :: rest) => (m, some rest)

/-- Modelled from the spec: float or double lexical form without the
special tokens: a decimal mantissa, optionally followed by an exponent
marker, an optional sign and one or more digits. -/
def floatLexChars (l : List Char) : Bool :=
  match splitAtExp l with
  | (m, none) => decimalMantValid m
  | (m, some ex) => decimalMantValid m && integerLexChars ex

/-- Modelled from the spec: the full float and double lexical space,
with INF, -INF and NaN accepted verbatim. -/
def floatLexValid (s : String) : Bool :=
  s == "INF" || s == "-INF" || s == "NaN" || floatLexChars s.data

/-- Value space of float and double literals, modelled exactly: the
denoted number as a scaled integer mantissa times a power of ten, or one
of the special values. Rounding to the machine float is a total
operation and is not modelled. -/
inductive FloatDenotation
  | num (mantissa : Int) (exp10 : Int)
  | inf
  | negInf
  | nan
deriving DecidableEq

/-- Modelled from the spec: value construction for float and double
lexical forms (lexical module not under src/). -/
def parseFloatLex (s : String) : Option FloatDenotation :=
  if s == "INF" then some .inf
  else if s == "-INF" then some .negInf
  else if s == "NaN" then some .nan
  else
    match splitAtExp s.data with
    | (m, none) =>
      (decimalMantValue m).map (fun p => .num p.1 (-(p.2 : Int)))
    | (m, some ex) =>
      match decimalMantValue m, parseIntegerChars ex with
      | some p, some xv => some (.num p.1 (xv - (p.2 : Int)))
      | _, _ => none

/-- Modelled from the spec: the boolean lexical space is exactly true,
false, 1 and 0. -/
def parseBooleanLex (s : String) : Option Bool :=
  if s == "true" || s == "1" then some true
  else if s == "false" || s == "0" then some false
  else none

/-! ## The parse pipeline (Datatype::parse and the per-level parse
methods, src/lib.rs lines 325-365 and 496-762). -/

/-- Mirrors Rust enum Value; the value module defining it is not fully
under src/, so the payloads are modelled from the spec value spaces: the
numeric family carries the denoted numbers and decimal carries a scaled
integer. -/
inductive Value
  | String (s : String)
  | Boolean (b : Bool)
  | Decimal (mantissa : Int) (scale : Nat)
  | Integer (n : Int)
  | NonPositiveInteger (x : NonPositiveInteger)
  | NegativeInteger (n : Int)
  | Long (n : Int)
  | Int (n : Int)
  | Short (n : Int)
  | Byte (n : Int)
  | NonNegativeInteger (x : NonNegativeInteger)
  | UnsignedLong (n : Int)
  | UnsignedInt (n : Int)
  | UnsignedShort (n : Int)
  | UnsignedByte (n : Int)
  | PositiveInteger (n : Int)
  | Float (f : FloatDenotation)
  | Double (f : FloatDenotation)
deriving DecidableEq

/-- The components whose value modules are not under src/ and whose
grammars the spec leaves to external collaborators or the W3C text. -/
inductive ExternalKind
  | DateTime
  | HexBinary
  | Base64Binary
  | AnyUri
deriving DecidableEq

/-- Outcome of Datatype::parse. ok and err model the returned Result
(err is the unit ParseError); todoPanic models the todo macro, which
panics instead of returning; externalResult records that the arm returns
the Result produced by a component not under src/. -/
inductive ParseOutcome
  | ok (v : Value)
  | err
  | todoPanic
  | externalResult (k : ExternalKind) (s : String)
deriving DecidableEq

/-- Maps the Result of a validator and constructor pair onto the parse
outcome, as each implemented arm does with map and map_err. -/
def parseResult (o : Option Value) : ParseOutcome :=
  match o with
  | some v => .ok v
  | none => .err

/-- Modelled from the spec: integer parse restricted to a machine range,
used for the fixed-width rungs (lexical and value modules not under
src/): grammar acceptance, then the range check of the value space. -/
def parseIntRange (lo hi : Int) (s : String) : Option Int :=
  (parseBigInt s).bind (fun v => if lo ≤ v ∧ v ≤ hi then some v else none)

/-- Modelled from the spec: value construction for xsd:integer. -/
def parseIntegerValue (s : String) : Option Int :=
  if integerLexChars s.data then parseBigInt s else none

/-- Modelled from the spec: value construction for
xsd:nonPositiveInteger. -/
def parseNonPosValue (s : String) : Option Int :=
  if nonPosLexValid s then parseBigInt s else none

/-- Modelled from the spec: value construction for xsd:negativeInteger. -/
def parseNegValue (s : String) : Option Int :=
  if negLexValid s then parseBigInt s else none

/-- Modelled from the spec: value construction for
xsd:nonNegativeInteger. -/
def parseNonNegValue (s : String) : Option Int :=
  if nonNegLexValid s then parseBigInt s else none

/-- Modelled from the spec: value construction for xsd:positiveInteger. -/
def parsePosValue (s : String) : Option Int :=
  if posLexChars s.data then parseBigInt s else none

/-- Modelled from the spec: value construction for xsd:decimal. -/
def parseDecimalValue (s : String) : Option (Int × Nat) :=
  decimalMantValue s.data

/-- ShortDatatype::parse (src/lib.rs lines 649-656). -/
def ShortDatatype.parse (t : ShortDatatype) (s : String) : ParseOutcome :=
  match t with
  | .Byte => parseResult ((parseIntRange (-128) 127 s).map Value.Byte)

/-- IntDatatype::parse (src/lib.rs lines 624-632). -/
def IntDatatype.parse (t : IntDatatype) (s : String) : ParseOutcome :=
  match t with
  | .Short none =>
    parseResult ((parseIntRange (-32768) 32767 s).map Value.Short)
  | .Short (some t) => t.parse s

/-- LongDatatype::parse (src/lib.rs lines 597-605). -/
def LongDatatype.parse (t : LongDatatype) (s : String) : ParseOutcome :=
  match t with
  | .Int none =>
    parseResult ((parseIntRange (-2147483648) 2147483647 s).map Value.Int)
  | .Int (some t) => t.parse s

/-- NonPositiveIntegerDatatype::parse (src/lib.rs lines 576-583). -/
def NonPositiveIntegerDatatype.parse (t : NonPositiveIntegerDatatype)
    (s : String) : ParseOutcome :=
  match t with
  | .NegativeInteger =>
    parseResult ((parseNegValue s).map Value.NegativeInteger)

/-- UnsignedShortDatatype::parse (src/lib.rs lines 755-762). -/
def UnsignedShortDatatype.parse (t : UnsignedShortDatatype) (s : String) :
    ParseOutcome :=
  match t with
  | .UnsignedByte =>
    parseResult ((parseIntRange 0 255 s).map Value.UnsignedByte)

/-- UnsignedIntDatatype::parse (src/lib.rs lines 730-738). -/
def UnsignedIntDatatype.parse (t : UnsignedIntDatatype) (s : String) :
    ParseOutcome :=
  match t with
  | .UnsignedShort none =>
    parseResult ((parseIntRange 0 65535 s).map Value.UnsignedShort)
  | .UnsignedShort (some t) => t.parse s

/-- UnsignedLongDatatype::parse (src/lib.rs lines 703-711). -/
def UnsignedLongDatatype.parse (t : UnsignedLongDatatype) (s : String) :
    ParseOutcome :=
  match t with
  | .UnsignedInt none =>
    parseResult ((parseIntRange 0 4294967295 s).map Value.UnsignedInt)
  | .UnsignedInt (some t) => t.parse s

/-- NonNegativeIntegerDatatype::parse (src/lib.rs lines 672-683). -/
def NonNegativeIntegerDatatype.parse (t : NonNegativeIntegerDatatype)
    (s : String) : ParseOutcome :=
  match t with
  | .UnsignedLong none =>
    parseResult ((parseIntRange 0 18446744073709551615 s).map Value.UnsignedLong)
  | .UnsignedLong (some t) => t.parse s
  | .PositiveInteger =>
    parseResult ((parsePosValue s).map Value.PositiveInteger)

/-- IntegerDatatype::parse (src/lib.rs lines 536-551). -/
def IntegerDatatype.parse (t : IntegerDatatype) (s : String) : ParseOutcome :=
  match t with
  | .NonPositiveInteger none =>
    parseResult ((parseNonPosValue s).map
      (fun v => Value.NonPositiveInteger ⟨v⟩))
  | .NonPositiveInteger (some t) => t.parse s
  | .Long none =>
    parseResult ((parseIntRange (-9223372036854775808) 9223372036854775807 s).map
      Value.Long)
  | .Long (some t) => t.parse s
  | .NonNegativeInteger none =>
    parseResult ((parseNonNegValue s).map
      (fun v => Value.NonNegativeInteger ⟨v⟩))
  | .NonNegativeInteger (some t) => t.parse s

/-- DecimalDatatype::parse (src/lib.rs lines 496-503). -/
def DecimalDatatype.parse (t : DecimalDatatype) (s : String) : ParseOutcome :=
  match t with
  | .Integer none =>
    parseResult ((parseIntegerValue s).map Value.Integer)
  | .Integer (some t) => t.parse s

/-- Datatype::parse (src/lib.rs lines 325-365): the implemented arms
dispatch to the validator and constructor pair; arms whose grammar is
unimplemented are the todo macro, which panics; the dateTime, hexBinary,
base64Binary and anyURI arms return the Result of components not under
src/. -/
def Datatype.parse (d : Datatype) (s : LexicalString) : ParseOutcome :=
  match d with
  | .String none => .ok (.String s)
  | .String (some _) => .todoPanic
  | .Boolean => parseResult ((parseBooleanLex s).map Value.Boolean)
  | .Decimal none =>
    parseResult ((parseDecimalValue s).map (fun p => Value.Decimal p.1 p.2))
  | .Decimal (some t) => t.parse s
  | .Float => parseResult ((parseFloatLex s).map Value.Float)
  | .Double => parseResult ((parseFloatLex s).map Value.Double)
  | .Duration => .todoPanic
  | .DateTime => .externalResult .DateTime s
  | .Time => .todoPanic
  | .Date => .todoPanic
  | .GYearMonth => .todoPanic
  | .GYear => .todoPanic
  | .GMonthDay => .todoPanic
  | .GDay => .todoPanic
  | .GMonth => .todoPanic
  | .HexBinary => .externalResult .HexBinary s
  | .Base64Binary => .externalResult .Base64Binary s
  | .AnyUri => .externalResult .AnyUri s
  | .QName => .todoPanic
  | .Notation => .todoPanic

/-! ## Claims about the bounded arithmetic layer. -/

/-- C1: the claim says every arithmetic operation on NonNegativeInteger
keeps the stored integer non-negative or signals the violation. The
same-type Sub impl has no check: 0 - 1 silently yields a
NonNegativeInteger holding -1, while the machine-integer paths of the
same operations do assert and abort. -/
theorem C1_sub_silently_negative :
    NonNegativeInteger.sub ⟨0⟩ ⟨1⟩ = ⟨-1⟩ ∧
    ¬ 0 ≤ (NonNegativeInteger.sub ⟨0⟩ ⟨1⟩).val ∧
    NonNegativeInteger.subInt ⟨0⟩ 1 = ArithResult.panic ∧
    NonNegativeInteger.addInt ⟨0⟩ (-1) = ArithResult.panic := by
  decide

/-- C2 counterexample: dividing a NonNegativeInteger by zero is not a
reported, recoverable error: both the same-type and the machine-integer
division panic (BigInt division by zero aborts the process). -/
theorem C2_div_by_zero_is_a_panic :
    NonNegativeInteger.div ⟨1⟩ ⟨0⟩ = ArithResult.panic ∧
    NonNegativeInteger.divInt ⟨1⟩ 0 = ArithResult.panic := by
  decide

/-- C2 amended: for every nonzero divisor the quotient is the truncating
toward-zero arbitrary-precision division (asserted non-negative on the
machine-integer path); a zero divisor panics instead of returning an
error. -/
theorem C2_truncating_division :
    (∀ a b : NonNegativeInteger, b.val ≠ 0 →
      NonNegativeInteger.div a b = ArithResult.ok ⟨a.val.tdiv b.val⟩) ∧
    (∀ a : NonNegativeInteger,
      NonNegativeInteger.div a ⟨0⟩ = ArithResult.panic) ∧
    (∀ a : NonNegativeInteger,
      NonNegativeInteger.divInt a 0 = ArithResult.panic) ∧
    (∀ a : NonNegativeInteger, ∀ m : Int, m ≠ 0 → 0 ≤ a.val.tdiv m →
      NonNegativeInteger.divInt a m = ArithResult.ok ⟨a.val.tdiv m⟩) := by
  refine ⟨?_, ?_, ?_, ?_⟩
  · intro a b hb
    unfold NonNegativeInteger.div
    rw [if_neg hb]
  · intro a
    unfold NonNegativeInteger.div
    rfl
  · intro a
    unfold NonNegativeInteger.divInt
    rfl
  · intro a m hm hn
    unfold NonNegativeInteger.divInt
    rw [if_neg hm, if_neg (by omega)]

/-- C2 witness: the amended theorem applied at 7 divided by 2. -/
theorem C2_truncating_division_witness :
    NonNegativeInteger.div ⟨7⟩ ⟨2⟩ = ArithResult.ok ⟨3⟩ ∧
    NonNegativeInteger.divInt ⟨7⟩ 2 = ArithResult.ok ⟨3⟩ :=
  ⟨C2_truncating_division.1 ⟨7⟩ ⟨2⟩ (by decide),
   C2_truncating_division.2.2.2 ⟨7⟩ 2 (by decide) (by decide)⟩

/-- C3: non_negative_integer_type is total (always classifies), zero and
every non-negative value up to 255 classify as UnsignedByte, the
classification switches rung exactly at 255/256, 65535/65536,
4294967295/4294967296 and at the 2^64-1 boundary, and every value above
2^64-1 classifies as PositiveInteger. -/
theorem C3_narrowing_boundaries :
    (∀ x : NonNegativeInteger, x.nonNegativeIntegerType.isSome = true) ∧
    (∀ x : NonNegativeInteger, 0 ≤ x.val → x.val ≤ 255 →
      x.nonNegativeIntegerType =
        some UnsignedShortDatatype.UnsignedByte.toNonNegativeIntegerDatatype) ∧
    ((NonNegativeInteger.mk 255).nonNegativeIntegerType =
        some UnsignedShortDatatype.UnsignedByte.toNonNegativeIntegerDatatype ∧
     (NonNegativeInteger.mk 256).nonNegativeIntegerType =
        some (UnsignedIntDatatype.UnsignedShort none).toNonNegativeIntegerDatatype ∧
     (NonNegativeInteger.mk 65535).nonNegativeIntegerType =
        some (UnsignedIntDatatype.UnsignedShort none).toNonNegativeIntegerDatatype ∧
     (NonNegativeInteger.mk 65536).nonNegativeIntegerType =
        some (UnsignedLongDatatype.UnsignedInt none).toNonNegativeIntegerDatatype ∧
     (NonNegativeInteger.mk 4294967295).nonNegativeIntegerType =
        some (UnsignedLongDatatype.UnsignedInt none).toNonNegativeIntegerDatatype ∧
     (NonNegativeInteger.mk 4294967296).nonNegativeIntegerType =
        some (NonNegativeIntegerDatatype.UnsignedLong none) ∧
     (NonNegativeInteger.mk 18446744073709551615).nonNegativeIntegerType =
        some (NonNegativeIntegerDatatype.UnsignedLong none) ∧
     (NonNegativeInteger.mk 18446744073709551616).nonNegativeIntegerType =
        some NonNegativeIntegerDatatype.PositiveInteger) ∧
    (∀ x : NonNegativeInteger, 18446744073709551615 < x.val →
      x.nonNegativeIntegerType = some NonNegativeIntegerDatatype.PositiveInteger) := by
  refine ⟨?_, ?_, by decide, ?_⟩
  · intro x
    unfold NonNegativeInteger.nonNegativeIntegerType
    split_ifs <;> rfl
  · intro x h0 h1
    unfold NonNegativeInteger.nonNegativeIntegerType U8_MAX U16_MAX U32_MAX U64_MAX
    split_ifs <;> first | rfl | omega
  · intro x h
    unfold NonNegativeInteger.nonNegativeIntegerType U8_MAX U16_MAX U32_MAX U64_MAX
    split_ifs <;> first | rfl | omega

/-- C3 witness: the boundary theorem applied at 7 and at 2^64. -/
theorem C3_narrowing_boundaries_witness :
    (NonNegativeInteger.mk 7).nonNegativeIntegerType =
      some UnsignedShortDatatype.UnsignedByte.toNonNegativeIntegerDatatype ∧
    (NonNegativeInteger.mk 18446744073709551616).nonNegativeIntegerType =
      some NonNegativeIntegerDatatype.PositiveInteger :=
  ⟨C3_narrowing_boundaries.2.1 ⟨7⟩ (by decide) (by decide),
   C3_narrowing_boundaries.2.2.2 ⟨18446744073709551616⟩ (by decide)⟩

/-- C4: the claim says a strictly negative NonPositiveInteger classifies
as NegativeInteger and zero as the nonPositiveInteger rung. The source
tests self.0 greater than zero (dead under the invariant) instead of
less than zero: -1 gets no classification and its type collapses to
plain xsd:decimal, zero likewise, while the NegativeInteger answer is
reachable only for invariant-violating positive values. -/
theorem C4_classification_sign_inverted :
    NonPositiveInteger.nonPositiveIntegerType ⟨-1⟩ = none ∧
    NonPositiveInteger.type_ ⟨-1⟩ = Datatype.Decimal none ∧
    NonPositiveInteger.type_ ⟨0⟩ = Datatype.Decimal none ∧
    NonPositiveInteger.nonPositiveIntegerType ⟨1⟩ =
      some NonPositiveIntegerDatatype.NegativeInteger := by
  decide

/-- C8: for each of the ten machine targets of the try_into macro, the
narrowing conversion fails exactly outside the target range with an
error carrying the input back unmodified, and succeeds inside the range
with the numerically equal machine integer. -/
theorem C8_narrowing_error_carries_value :
    (∀ p ∈ machineTargets, ∀ v : NonNegativeInteger,
      (¬ (p.1 ≤ v.val ∧ v.val ≤ p.2) →
        NonNegativeInteger.tryInto p.1 p.2 v = RustResult.error v) ∧
      (p.1 ≤ v.val → v.val ≤ p.2 →
        NonNegativeInteger.tryInto p.1 p.2 v = RustResult.ok v.val)) ∧
    (∀ p ∈ machineTargets, ∀ v : NonPositiveInteger,
      (¬ (p.1 ≤ v.val ∧ v.val ≤ p.2) →
        NonPositiveInteger.tryInto p.1 p.2 v = RustResult.error v) ∧
      (p.1 ≤ v.val → v.val ≤ p.2 →
        NonPositiveInteger.tryInto p.1 p.2 v = RustResult.ok v.val)) := by
  constructor
  · intro p _ v
    constructor
    · intro h
      unfold NonNegativeInteger.tryInto
      rw [if_neg h]
    · intro h1 h2
      unfold NonNegativeInteger.tryInto
      rw [if_pos ⟨h1, h2⟩]
  · intro p _ v
    constructor
    · intro h
      unfold NonPositiveInteger.tryInto
      rw [if_neg h]
    · intro h1 h2
      unfold NonPositiveInteger.tryInto
      rw [if_pos ⟨h1, h2⟩]

/-- C8 witness: narrowing 300 into the u8 range errors with the value
carried back; narrowing 200 succeeds; narrowing -300 out of the i8 range
errors with the value carried back. -/
theorem C8_narrowing_error_carries_value_witness :
    NonNegativeInteger.tryInto 0 255 ⟨300⟩ = RustResult.error ⟨300⟩ ∧
    NonNegativeInteger.tryInto 0 255 ⟨200⟩ = RustResult.ok 200 ∧
    NonPositiveInteger.tryInto (-128) 127 ⟨-300⟩ = RustResult.error ⟨-300⟩ :=
  ⟨(C8_narrowing_error_carries_value.1 (0, 255) (by decide) ⟨300⟩).1 (by decide),
   (C8_narrowing_error_carries_value.1 (0, 255) (by decide) ⟨200⟩).2 (by decide) (by decide),
   (C8_narrowing_error_carries_value.2 (-128, 127) (by decide) ⟨-300⟩).1 (by decide)⟩

/-- C10: a u64 above the u32 bound has unsigned_long_type None, and the
generated Option conversion maps None to the plain xsd:decimal datatype,
so type_ returns Decimal None; the same collapse happens for u32 above
the u16 bound and u16 above the u8 bound. -/
theorem C10_type_collapses_to_decimal :
    (∀ n : Nat, 4294967295 < n → n < 18446744073709551616 →
      unsignedLongType n = none ∧
      unsignedLongTypeDatatype n = Datatype.Decimal none) ∧
    (∀ n : Nat, 65535 < n → n < 4294967296 →
      unsignedIntType n = none ∧
      unsignedIntTypeDatatype n = Datatype.Decimal none) ∧
    (∀ n : Nat, 255 < n → n < 65536 →
      unsignedShortType n = none ∧
      unsignedShortTypeDatatype n = Datatype.Decimal none) := by
  refine ⟨?_, ?_, ?_⟩
  · intro n h1 h2
    unfold unsignedLongTypeDatatype unsignedLongType Datatype.ofUnsignedLongDatatypeOpt
    split_ifs <;> first | exact ⟨rfl, rfl⟩ | omega
  · intro n h1 h2
    unfold unsignedIntTypeDatatype unsignedIntType Datatype.ofUnsignedIntDatatypeOpt
    split_ifs <;> first | exact ⟨rfl, rfl⟩ | omega
  · intro n h1 h2
    unfold unsignedShortTypeDatatype unsignedShortType Datatype.ofUnsignedShortDatatypeOpt
    split_ifs <;> first | exact ⟨rfl, rfl⟩ | omega

/-- C10 witness: the collapse theorem applied just above each bound. -/
theorem C10_type_collapses_to_decimal_witness :
    (unsignedLongType 4294967296 = none ∧
     unsignedLongTypeDatatype 4294967296 = Datatype.Decimal none) ∧
    (unsignedIntType 65536 = none ∧
     unsignedIntTypeDatatype 65536 = Datatype.Decimal none) ∧
    (unsignedShortType 256 = none ∧
     unsignedShortTypeDatatype 256 = Datatype.Decimal none) :=
  ⟨C10_type_collapses_to_decimal.1 4294967296 (by decide) (by decide),
   C10_type_collapses_to_decimal.2.1 65536 (by decide) (by decide),
   C10_type_collapses_to_decimal.2.2 256 (by decide) (by decide)⟩

set_option maxHeartbeats 3200000 in
/-- C5: from_iri inverts iri on every constructible datatype, and every
IRI outside the known mapped set, including the unimplemented
list-derived NMTOKENS, IDREFS and ENTITIES, maps to None. -/
theorem C5_from_iri_inverts_iri :
    (∀ d : Datatype, Datatype.fromIri d.iri = some d) ∧
    (∀ s : Iri, s ∉ knownIris → Datatype.fromIri s = none) ∧
    Datatype.fromIri XSD_NMTOKENS = none ∧
    Datatype.fromIri XSD_IDREFS = none ∧
    Datatype.fromIri XSD_ENTITIES = none := by
  refine ⟨?_, ?_, by decide, by decide, by decide⟩
  · intro d
    match d with
    | .String none => decide
    | .String (some (.NormalizedString none)) => decide
    | .String (some (.NormalizedString (some (.Token none)))) => decide
    | .String (some (.NormalizedString (some (.Token (some .Language))))) => decide
    | .String (some (.NormalizedString (some (.Token (some .NMToken))))) => decide
    | .String (some (.NormalizedString (some (.Token (some (.Name none)))))) => decide
    | .String (some (.NormalizedString (some (.Token (some (.Name (some (.NCName none)))))))) => decide
    | .String (some (.NormalizedString (some (.Token (some (.Name (some (.NCName (some .Id))))))))) => decide
    | .String (some (.NormalizedString (some (.Token (some (.Name (some (.NCName (some .IdRef))))))))) => decide
    | .String (some (.NormalizedString (some (.Token (some (.Name (some (.NCName (some .Entity))))))))) => decide
    | .Boolean => decide
    | .Decimal none => decide
    | .Decimal (some (.Integer none)) => decide
    | .Decimal (some (.Integer (some (.NonPositiveInteger none)))) => decide
    | .Decimal (some (.Integer (some (.NonPositiveInteger (some .NegativeInteger))))) => decide
    | .Decimal (some (.Integer (some (.Long none)))) => decide
    | .Decimal (some (.Integer (some (.Long (some (.Int none)))))) => decide
    | .Decimal (some (.Integer (some (.Long (some (.Int (some (.Short none)))))))) => decide
    | .Decimal (some (.Integer (some (.Long (some (.Int (some (.Short (some .Byte))))))))) => decide
    | .Decimal (some (.Integer (some (.NonNegativeInteger none)))) => decide
    | .Decimal (some (.Integer (some (.NonNegativeInteger (some (.UnsignedLong none)))))) => decide
    | .Decimal (some (.Integer (some (.NonNegativeInteger (some (.UnsignedLong (some (.UnsignedInt none)))))))) => decide
    | .Decimal (some (.Integer (some (.NonNegativeInteger (some (.UnsignedLong (some (.UnsignedInt (some (.UnsignedShort none)))))))))) => decide
    | .Decimal (some (.Integer (some (.NonNegativeInteger (some (.UnsignedLong (some (.UnsignedInt (some (.UnsignedShort (some .UnsignedByte))))))))))) => decide
    | .Decimal (some (.Integer (some (.NonNegativeInteger (some .PositiveInteger))))) => decide
    | .Float => decide
    | .Double => decide
    | .Duration => decide
    | .DateTime => decide
    | .Time => decide
    | .Date => decide
    | .GYearMonth => decide
    | .GYear => decide
    | .GMonthDay => decide
    | .GDay => decide
    | .GMonth => decide
    | .HexBinary => decide
    | .Base64Binary => decide
    | .AnyUri => decide
    | .QName => decide
    | .Notation => decide
  · intro s hs
    unfold Datatype.fromIri
    by_cases h1 : s = XSD_DURATION
    · subst h1
      exact absurd (by simp [knownIris]) hs
    rw [if_neg h1]
    by_cases h2 : s = XSD_DATE_TIME
    · subst h2
      exact absurd (by simp [knownIris]) hs
    rw [if_neg h2]
    by_cases h3 : s = XSD_TIME
    · subst h3
      exact absurd (by simp [knownIris]) hs
    rw [if_neg h3]
    by_cases h4 : s = XSD_DATE
    · subst h4
      exact absurd (by simp [knownIris]) hs
    rw [if_neg h4]
    by_cases h5 : s = XSD_G_YEAR_MONTH
    · subst h5
      exact absurd (by simp [knownIris]) hs
    rw [if_neg h5]
    by_cases h6 : s = XSD_G_YEAR
    · subst h6
      exact absurd (by simp [knownIris]) hs
    rw [if_neg h6]
    by_cases h7 : s = XSD_G_MONTH_DAY
    · subst h7
      exact absurd (by simp [knownIris]) hs
    rw [if_neg h7]
    by_cases h8 : s = XSD_G_DAY
    · subst h8
      exact absurd (by simp [knownIris]) hs
    rw [if_neg h8]
    by_cases h9 : s = XSD_G_MONTH
    · subst h9
      exact absurd (by simp [knownIris]) hs
    rw [if_neg h9]
    by_cases h10 : s = XSD_STRING
    · subst h10
      exact absurd (by simp [knownIris]) hs
    rw [if_neg h10]
    by_cases h11 : s = XSD_BOOLEAN
    · subst h11
      exact absurd (by simp [knownIris]) hs
    rw [if_neg h11]
    by_cases h12 : s = XSD_BASE64_BINARY
    · subst h12
      exact absurd (by simp [knownIris]) hs
    rw [if_neg h12]
    by_cases h13 : s = XSD_HEX_BINARY
    · subst h13
      exact absurd (by simp [knownIris]) hs
    rw [if_neg h13]
    by_cases h14 : s = XSD_FLOAT
    · subst h14
      exact absurd (by simp [knownIris]) hs
    rw [if_neg h14]
    by_cases h15 : s = XSD_DECIMAL
    · subst h15
      exact absurd (by simp [knownIris]) hs
    rw [if_neg h15]
    by_cases h16 : s = XSD_DOUBLE
    · subst h16
      exact absurd (by simp [knownIris]) hs
    rw [if_neg h16]
    by_cases h17 : s = XSD_ANY_URI
    · subst h17
      exact absurd (by simp [knownIris]) hs
    rw [if_neg h17]
    by_cases h18 : s = XSD_Q_NAME
    · subst h18
      exact absurd (by simp [knownIris]) hs
    rw [if_neg h18]
    by_cases h19 : s = XSD_NOTATION
    · subst h19
      exact absurd (by simp [knownIris]) hs
    rw [if_neg h19]
    by_cases h20 : s = XSD_NORMALIZED_STRING
    · subst h20
      exact absurd (by simp [knownIris]) hs
    rw [if_neg h20]
    by_cases h21 : s = XSD_TOKEN
    · subst h21
      exact absurd (by simp [knownIris]) hs
    rw [if_neg h21]
    by_cases h22 : s = XSD_LANGUAGE
    · subst h22
      exact absurd (by simp [knownIris]) hs
    rw [if_neg h22]
    by_cases h23 : s = XSD_NAME
    · subst h23
      exact absurd (by simp [knownIris]) hs
    rw [if_neg h23]
    by_cases h24 : s = XSD_NMTOKEN
    · subst h24
      exact absurd (by simp [knownIris]) hs
    rw [if_neg h24]
    by_cases h25 : s = XSD_NMTOKENS
    · rw [if_pos h25]
    rw [if_neg h25]
    by_cases h26 : s = XSD_NC_NAME
    · subst h26
      exact absurd (by simp [knownIris]) hs
    rw [if_neg h26]
    by_cases h27 : s = XSD_ID
    · subst h27
      exact absurd (by simp [knownIris]) hs
    rw [if_neg h27]
    by_cases h28 : s = XSD_IDREF
    · subst h28
      exact absurd (by simp [knownIris]) hs
    rw [if_neg h28]
    by_cases h29 : s = XSD_ENTITY
    · subst h29
      exact absurd (by simp [knownIris]) hs
    rw [if_neg h29]
    by_cases h30 : s = XSD_IDREFS
    · rw [if_pos h30]
    rw [if_neg h30]
    by_cases h31 : s = XSD_ENTITIES
    · rw [if_pos h31]
    rw [if_neg h31]
    by_cases h32 : s = XSD_INTEGER
    · subst h32
      exact absurd (by simp [knownIris]) hs
    rw [if_neg h32]
    by_cases h33 : s = XSD_NON_POSITIVE_INTEGER
    · subst h33
      exact absurd (by simp [knownIris]) hs
    rw [if_neg h33]
    by_cases h34 : s = XSD_NEGATIVE_INTEGER
    · subst h34
      exact absurd (by simp [knownIris]) hs
    rw [if_neg h34]
    by_cases h35 : s = XSD_LONG
    · subst h35
      exact absurd (by simp [knownIris]) hs
    rw [if_neg h35]
    by_cases h36 : s = XSD_INT
    · subst h36
      exact absurd (by simp [knownIris]) hs
    rw [if_neg h36]
    by_cases h37 : s = XSD_SHORT
    · subst h37
      exact absurd (by simp [knownIris]) hs
    rw [if_neg h37]
    by_cases h38 : s = XSD_BYTE
    · subst h38
      exact absurd (by simp [knownIris]) hs
    rw [if_neg h38]
    by_cases h39 : s = XSD_NON_NEGATIVE_INTEGER
    · subst h39
      exact absurd (by simp [knownIris]) hs
    rw [if_neg h39]
    by_cases h40 : s = XSD_UNSIGNED_LONG
    · subst h40
      exact absurd (by simp [knownIris]) hs
    rw [if_neg h40]
    by_cases h41 : s = XSD_UNSIGNED_INT
    · subst h41
      exact absurd (by simp [knownIris]) hs
    rw [if_neg h41]
    by_cases h42 : s = XSD_UNSIGNED_SHORT
    · subst h42
      exact absurd (by simp [knownIris]) hs
    rw [if_neg h42]
    by_cases h43 : s = XSD_UNSIGNED_BYTE
    · subst h43
      exact absurd (by simp [knownIris]) hs
    rw [if_neg h43]
    by_cases h44 : s = XSD_POSITIVE_INTEGER
    · subst h44
      exact absurd (by simp [knownIris]) hs
    rw [if_neg h44]

/-- C5 witness: the inverse law applied at the byte datatype, and the
unknown-IRI law applied at an example IRI outside the known set. -/
theorem C5_from_iri_inverts_iri_witness :
    Datatype.fromIri
      (Datatype.Decimal (some (.Integer (some (.Long (some (.Int (some (.Short (some .Byte)))))))))).iri =
      some (Datatype.Decimal (some (.Integer (some (.Long (some (.Int (some (.Short (some .Byte)))))))))) ∧
    Datatype.fromIri "http://example.org/unknown" = none :=
  ⟨C5_from_iri_inverts_iri.1
     (Datatype.Decimal (some (.Integer (some (.Long (some (.Int (some (.Short (some .Byte)))))))))),
   C5_from_iri_inverts_iri.2.1 "http://example.org/unknown" (by decide)⟩

/-! ## Agreement of the validators with the value constructors (C9). -/

/-- Conjunction introduction for Bool equations. -/
theorem bool_and_intro {a b : Bool} (ha : a = true) (hb : b = true) :
    (a && b) = true := by
  rw [ha, hb]
  rfl

/-- Mapping preserves definedness of an option. -/
theorem option_isSome_map {α β : Type} (f : α → β) (o : Option α)
    (h : o.isSome = true) : (o.map f).isSome = true := by
  cases o with
  | none => simp at h
  | some a => rfl

/-- A digit string of zeros denotes zero. -/
theorem digitsVal_of_all_zero (l : List Char)
    (h : l.all (fun x => x == '0') = true) : digitsVal l = 0 := by
  unfold digitsVal
  induction l with
  | nil => rfl
  | cons c rest ih =>
    rw [List.all_cons, Bool.and_eq_true] at h
    have hc : c = '0' := by simpa using h.1
    subst hc
    have hstep : 0 * 10 + digitVal '0' = 0 := by decide
    rw [List.foldl_cons, hstep]
    exact ih h.2

/-- Zeros are digits. -/
theorem all_zero_all_digits (l : List Char)
    (h : l.all (fun x => x == '0') = true) : l.all isAsciiDigit = true := by
  rw [List.all_eq_true] at h ⊢
  intro c hc
  have := h c hc
  have hc0 : c = '0' := by simpa using this
  subst hc0
  decide

/-- The digit fold never decreases below its accumulator. -/
theorem digits_foldl_ge (l : List Char) : ∀ acc : Nat,
    acc ≤ List.foldl (fun acc c => acc * 10 + digitVal c) acc l := by
  induction l with
  | nil => intro acc; exact Nat.le_refl _
  | cons c rest ih =>
    intro acc
    calc acc ≤ acc * 10 + digitVal c := by omega
    _ ≤ _ := ih _

/-- A digit other than the zero character has a positive value. -/
theorem digitVal_pos_of_ne_zero (c : Char) (hd : isAsciiDigit c = true)
    (hne : (c == '0') = false) : 1 ≤ digitVal c := by
  unfold isAsciiDigit at hd
  rw [Bool.and_eq_true, decide_eq_true_iff, decide_eq_true_iff] at hd
  by_contra hlt
  have h48 : c.toNat = 48 := by unfold digitVal at hlt; omega
  have hc : c = '0' := by
    rw [Char.ext_iff, UInt32.ext_iff]
    have h0 : ('0' : Char).val.toNat = 48 := by decide
    rw [h0]
    exact h48
  subst hc
  simp at hne

/-- A digit string with a nonzero digit denotes a positive value. -/
theorem digits_foldl_pos (l : List Char) : ∀ acc : Nat,
    l.all isAsciiDigit = true → l.any (fun x => x != '0') = true →
    0 < List.foldl (fun acc c => acc * 10 + digitVal c) acc l := by
  induction l with
  | nil => intro acc _ ha; simp at ha
  | cons c rest ih =>
    intro acc hd ha
    rw [List.all_cons, Bool.and_eq_true] at hd
    rw [List.any_cons, Bool.or_eq_true] at ha
    rcases ha with ha | ha
    · have h1 : 1 ≤ digitVal c := by
        apply digitVal_pos_of_ne_zero c hd.1
        simpa [bne] using ha
      calc 0 < acc * 10 + digitVal c := by omega
      _ ≤ _ := digits_foldl_ge rest _
    · exact ih _ hd.2 ha

/-- A digit string with a nonzero digit has a positive digitsVal. -/
theorem digitsVal_pos (l : List Char) (hd : l.all isAsciiDigit = true)
    (ha : l.any (fun x => x != '0') = true) : 0 < digitsVal l :=
  digits_foldl_pos l 0 hd ha

/-- Every string accepted by the nonNegativeInteger validator is parsed
by the BigInt parser, to a non-negative value. -/
theorem nonNeg_lex_parses (l : List Char) (h : nonNegLexChars l = true) :
    ∃ v : Int, parseIntegerChars l = some v ∧ 0 ≤ v := by
  match l with
  | [] => simp [nonNegLexChars] at h
  | c :: rest =>
    simp only [nonNegLexChars] at h
    simp only [parseIntegerChars]
    by_cases hp : c = '+'
    · rw [if_pos hp] at h ⊢
      unfold parseDigits
      rw [if_pos h]
      exact ⟨(digitsVal rest : Int), rfl, by positivity⟩
    · rw [if_neg hp] at h ⊢
      by_cases hm : c = '-'
      · rw [if_pos hm] at h ⊢
        rw [Bool.and_eq_true] at h
        unfold parseDigits
        rw [if_pos (bool_and_intro h.1 (all_zero_all_digits rest h.2))]
        refine ⟨-(digitsVal rest : Int), rfl, ?_⟩
        rw [digitsVal_of_all_zero rest h.2]
        decide
      · rw [if_neg hm] at h ⊢
        unfold parseDigits
        rw [if_pos h]
        exact ⟨(digitsVal (c :: rest) : Int), rfl, by positivity⟩

/-- Every string accepted by the nonPositiveInteger validator is parsed
by the BigInt parser, to a non-positive value. -/
theorem nonPos_lex_parses (l : List Char) (h : nonPosLexChars l = true) :
    ∃ v : Int, parseIntegerChars l = some v ∧ v ≤ 0 := by
  match l with
  | [] => simp [nonPosLexChars] at h
  | c :: rest =>
    simp only [nonPosLexChars] at h
    simp only [parseIntegerChars]
    by_cases hp : c = '+'
    · rw [if_pos hp] at h ⊢
      rw [Bool.and_eq_true] at h
      unfold parseDigits
      rw [if_pos (bool_and_intro h.1 (all_zero_all_digits rest h.2))]
      refine ⟨(digitsVal rest : Int), rfl, ?_⟩
      rw [digitsVal_of_all_zero rest h.2]
      decide
    · rw [if_neg hp] at h ⊢
      by_cases hm : c = '-'
      · rw [if_pos hm] at h ⊢
        unfold parseDigits
        rw [if_pos h]
        refine ⟨-(digitsVal rest : Int), rfl, ?_⟩
        omega
      · rw [if_neg hm] at h ⊢
        rw [Bool.and_eq_true] at h
        unfold parseDigits
        rw [if_pos (bool_and_intro h.1 (all_zero_all_digits _ h.2))]
        refine ⟨(digitsVal (c :: rest) : Int), rfl, ?_⟩
        rw [digitsVal_of_all_zero _ h.2]
        decide

/-- Every string accepted by the negativeInteger validator is parsed by
the BigInt parser, to a strictly negative value. -/
theorem neg_lex_parses (l : List Char) (h : negLexChars l = true) :
    ∃ v : Int, parseIntegerChars l = some v ∧ v < 0 := by
  match l with
  | [] => simp [negLexChars] at h
  | c :: rest =>
    simp only [negLexChars] at h
    simp only [parseIntegerChars]
    by_cases hm : c = '-'
    · rw [if_pos hm] at h
      have hp : ¬ c = '+' := by rw [hm]; decide
      rw [if_neg hp, if_pos hm]
      rw [Bool.and_eq_true, Bool.and_eq_true] at h
      unfold parseDigits
      rw [if_pos (bool_and_intro h.1.1 h.1.2)]
      refine ⟨-(digitsVal rest : Int), rfl, ?_⟩
      have := digitsVal_pos rest h.1.2 h.2
      omega
    · rw [if_neg hm] at h
      simp at h

/-- Every string accepted by the exponent grammar is parsed by the
BigInt parser. -/
theorem intLex_parses (l : List Char) (h : integerLexChars l = true) :
    (parseIntegerChars l).isSome = true := by
  match l with
  | [] => simp [integerLexChars] at h
  | c :: rest =>
    simp only [integerLexChars] at h
    simp only [parseIntegerChars]
    by_cases hp : c = '+'
    · rw [if_pos hp] at h ⊢
      unfold parseDigits
      rw [if_pos h]
      rfl
    · rw [if_neg hp] at h ⊢
      by_cases hm : c = '-'
      · rw [if_pos hm] at h ⊢
        unfold parseDigits
        rw [if_pos h]
        rfl
      · rw [if_neg hm] at h ⊢
        unfold parseDigits
        rw [if_pos h]
        rfl

/-- Every unsigned decimal body accepted by the validator has a value. -/
theorem decimalBody_parses (l : List Char) (h : decimalBodyValid l = true) :
    (decimalBodyValue l).isSome = true := by
  cases hd : l.dropWhile isAsciiDigit with
  | nil =>
    simp only [decimalBodyValid, hd] at h
    simp only [decimalBodyValue, hd]
    rw [Bool.not_eq_true'] at h
    rw [h]
    rfl
  | cons c frac =>
    simp only [decimalBodyValid, hd] at h
    simp only [decimalBodyValue, hd]
    rw [if_pos h]
    rfl

/-- Every signed decimal mantissa accepted by the validator has a value. -/
theorem decimalMant_parses (l : List Char) (h : decimalMantValid l = true) :
    (decimalMantValue l).isSome = true := by
  match l with
  | [] => simp [decimalMantValid] at h
  | c :: rest =>
    simp only [decimalMantValid] at h
    simp only [decimalMantValue]
    by_cases hp : c = '+'
    · rw [if_pos hp] at h ⊢
      exact decimalBody_parses rest h
    · rw [if_neg hp] at h ⊢
      by_cases hm : c = '-'
      · rw [if_pos hm] at h ⊢
        exact option_isSome_map _ _ (decimalBody_parses rest h)
      · rw [if_neg hm] at h ⊢
        exact decimalBody_parses (c :: rest) h

/-- Every string accepted by the float validator is given a value by the
float constructor. -/
theorem float_lex_parses (s : String) (h : floatLexValid s = true) :
    (parseFloatLex s).isSome = true := by
  unfold floatLexValid at h
  unfold parseFloatLex
  by_cases h1 : (s == "INF") = true
  · rw [if_pos h1]
    rfl
  rw [if_neg h1]
  by_cases h2 : (s == "-INF") = true
  · rw [if_pos h2]
    rfl
  rw [if_neg h2]
  by_cases h3 : (s == "NaN") = true
  · rw [if_pos h3]
    rfl
  rw [if_neg h3]
  rw [Bool.not_eq_true] at h1 h2 h3
  rw [h1, h2, h3] at h
  simp only [Bool.false_or] at h
  unfold floatLexChars at h
  rcases hse : splitAtExp s.data with ⟨m, e⟩
  rw [hse] at h
  cases e with
  | none =>
    simp only at h
    simp only
    exact option_isSome_map _ _ (decimalMant_parses m h)
  | some ex =>
    simp only [Bool.and_eq_true] at h
    obtain ⟨p, hp⟩ := Option.isSome_iff_exists.mp (decimalMant_parses m h.1)
    obtain ⟨xv, hxv⟩ := Option.isSome_iff_exists.mp (intLex_parses ex h.2)
    simp only [hp, hxv]
    rfl

/-- C9: every string accepted by a lexical validator is successfully
converted by the corresponding value constructor: the internal BigInt
parse succeeds and the resulting value satisfies the datatype bound, for
nonNegativeInteger, nonPositiveInteger and negativeInteger, and the
float constructor assigns a value to every validated float literal. -/
theorem C9_validated_construction_infallible :
    (∀ s : String, nonNegLexValid s = true →
      ∃ v : Int, parseBigInt s = some v ∧ 0 ≤ v) ∧
    (∀ s : String, nonPosLexValid s = true →
      ∃ v : Int, parseBigInt s = some v ∧ v ≤ 0) ∧
    (∀ s : String, negLexValid s = true →
      ∃ v : Int, parseBigInt s = some v ∧ v < 0) ∧
    (∀ s : String, floatLexValid s = true → (parseFloatLex s).isSome = true) :=
  ⟨fun s h => nonNeg_lex_parses s.data h,
   fun s h => nonPos_lex_parses s.data h,
   fun s h => neg_lex_parses s.data h,
   fun s h => float_lex_parses s h⟩

/-- C9 witness: the agreement theorem applied to concrete validated
lexical forms, including the signed and leading-zero edge cases. -/
theorem C9_validated_construction_infallible_witness :
    (nonNegLexValid "+07" = true ∧
      ∃ v : Int, parseBigInt "+07" = some v ∧ 0 ≤ v) ∧
    (nonPosLexValid "-42" = true ∧
      ∃ v : Int, parseBigInt "-42" = some v ∧ v ≤ 0) ∧
    (negLexValid "-007" = true ∧
      ∃ v : Int, parseBigInt "-007" = some v ∧ v < 0) ∧
    (floatLexValid "1.5E2" = true ∧ (parseFloatLex "1.5E2").isSome = true) :=
  ⟨⟨by decide, C9_validated_construction_infallible.1 "+07" (by decide)⟩,
   ⟨by decide, C9_validated_construction_infallible.2.1 "-42" (by decide)⟩,
   ⟨by decide, C9_validated_construction_infallible.2.2.1 "-007" (by decide)⟩,
   ⟨by decide, C9_validated_construction_infallible.2.2.2 "1.5E2" (by decide)⟩⟩

/-- C7 counterexample: parsing a duration reaches the todo macro, which
panics; the outcome is not the returned ParseError value, so the
unsupported signal is a crash, not an error returned to the caller. -/
theorem C7_parse_duration_panics :
    Datatype.parse .Duration "P1Y" = ParseOutcome.todoPanic ∧
    ParseOutcome.todoPanic ≠ ParseOutcome.err := by
  decide

/-- C7 amended: for every input, parsing a datatype whose grammar is
unimplemented (Duration, Time, Date, the G fragments, QName, NOTATION
and the String refinements) reaches the todo macro and panics: it never
silently accepts, mis-parses, or returns, but the explicit unimplemented
signal is a panic rather than an error value returned to the caller. -/
theorem C7_unimplemented_arms_panic :
    (∀ s : LexicalString, Datatype.parse .Duration s = ParseOutcome.todoPanic) ∧
    (∀ s : LexicalString, Datatype.parse .Time s = ParseOutcome.todoPanic) ∧
    (∀ s : LexicalString, Datatype.parse .Date s = ParseOutcome.todoPanic) ∧
    (∀ s : LexicalString, Datatype.parse .GYearMonth s = ParseOutcome.todoPanic) ∧
    (∀ s : LexicalString, Datatype.parse .GYear s = ParseOutcome.todoPanic) ∧
    (∀ s : LexicalString, Datatype.parse .GMonthDay s = ParseOutcome.todoPanic) ∧
    (∀ s : LexicalString, Datatype.parse .GDay s = ParseOutcome.todoPanic) ∧
    (∀ s : LexicalString, Datatype.parse .GMonth s = ParseOutcome.todoPanic) ∧
    (∀ s : LexicalString, Datatype.parse .QName s = ParseOutcome.todoPanic) ∧
    (∀ s : LexicalString, Datatype.parse .Notation s = ParseOutcome.todoPanic) ∧
    (∀ t : StringDatatype, ∀ s : LexicalString,
      Datatype.parse (.String (some t)) s = ParseOutcome.todoPanic) ∧
    (∀ v : Value, ParseOutcome.todoPanic ≠ ParseOutcome.ok v) ∧
    ParseOutcome.todoPanic ≠ ParseOutcome.err := by
  refine ⟨fun s => rfl, fun s => rfl, fun s => rfl, fun s => rfl, fun s => rfl,
    fun s => rfl, fun s => rfl, fun s => rfl, fun s => rfl, fun s => rfl,
    fun t s => rfl, fun v => by simp, by simp⟩
